import Mathlib

/-
Verification of the VIBE scoring core (src/vibe_calculator.py) against its
natural-language specification.

Modelling conventions:
* Python numbers are modelled as exact rationals (every Python float is a
  rational number; float rounding is not modelled).
* A statistic field of a player dict is `StatVal`: the key can be missing,
  can be present with value `None`, or can hold a number.  `d.get(k, d0)`
  returns the default on a missing key and `None` on a null one; the
  idiom `d.get(k, 0) or 0` additionally coerces `None` (and 0) to 0.
* Operations that can raise a Python exception return `Option`; `none` is
  an exception escaping to the caller.
* `numpy.std` is a square root and is generally irrational; values derived
  from it are therefore specified relationally over `ℝ` (`IsStd`,
  `IsFlooredStd`) instead of as rational functions, while the variance
  (`numpy.std` squared, i.e. the mean of squared deviations) is kept as an
  exact rational.
-/

namespace Vibe

/-- Value of one statistic key in a player stat dict: the key may be absent,
may be bound to Python `None`, or may hold a number. -/
inductive StatVal where
  | missing : StatVal
  | null : StatVal
  | val : ℚ → StatVal
deriving DecidableEq

/-- Semantics of the Python idiom `stats_dict.get(k, 0) or 0`: a missing key
gives the default 0 and `None` is coerced to 0, so the result is always a
number. -/
def StatVal.orZero : StatVal → ℚ
  | .missing => 0
  | .null => 0
  | .val q => q

/-- Semantics of a plain `stats_dict.get(k, d)` whose result is then used in
arithmetic or comparison: a missing key gives the default `d`, while a key
bound to `None` makes the surrounding expression raise `TypeError`
(modelled as `none`). -/
def StatVal.num : StatVal → ℚ → Option ℚ
  | .missing, d => some d
  | .null, _ => none
  | .val q, _ => some q

/-- Position groups assigned by `assign_position_group`. -/
inductive PosGroup where
  | GUARD : PosGroup
  | WING : PosGroup
  | BIG : PosGroup
deriving DecidableEq

/-- One player's season stat line (the dict rows consumed by
`vibe_calculator`).  `POSITION_GROUP` is the key written into qualified
players' dicts by `calculate_position_based_z_scores`; it is absent
(`Option.none`) on caller-supplied input. -/
structure PlayerStatLine where
  MIN : StatVal := .missing
  PTS : StatVal := .missing
  AST : StatVal := .missing
  OREB : StatVal := .missing
  DREB : StatVal := .missing
  STL : StatVal := .missing
  BLK : StatVal := .missing
  TOV : StatVal := .missing
  PF : StatVal := .missing
  PLUS_MINUS : StatVal := .missing
  FGA : StatVal := .missing
  FTA : StatVal := .missing
  GP : StatVal := .missing
  POSITION_GROUP : Option PosGroup := none
deriving DecidableEq

/-- Embeds `calculate_player_possessions` (lines 25-41): possessions are
`minutes * 100 / 240`, with non-positive (or falsy, i.e. zero) minutes
clamped to 1 to avoid division by zero. -/
def calculate_player_possessions (minutes : ℚ) : ℚ :=
  if minutes ≤ 0 then 1 else minutes * 100 / 240

/-- Per-100-possession rates returned by `calculate_per_100_stats`. -/
structure Per100 where
  PTS100 : ℚ
  AST100 : ℚ
  ORB100 : ℚ
  DRB100 : ℚ
  STL100 : ℚ
  BLK100 : ℚ
  TOV100 : ℚ
  PF100 : ℚ
  PM100 : ℚ
deriving DecidableEq

/-- Embeds `calculate_per_100_stats` (lines 43-69): every stat is read with
`stats_dict.get(S, 0) or 0` and scaled by `100 / player_poss`; a
non-positive possession count (impossible after the clamp, but guarded in
the source) yields all-zero rates. -/
def calculate_per_100_stats (s : PlayerStatLine) : Per100 :=
  let minutes := s.MIN.orZero
  let player_poss := calculate_player_possessions minutes
  if player_poss ≤ 0 then
    { PTS100 := 0, AST100 := 0, ORB100 := 0, DRB100 := 0, STL100 := 0,
      BLK100 := 0, TOV100 := 0, PF100 := 0, PM100 := 0 }
  else
    { PTS100 := s.PTS.orZero * 100 / player_poss
      AST100 := s.AST.orZero * 100 / player_poss
      ORB100 := s.OREB.orZero * 100 / player_poss
      DRB100 := s.DREB.orZero * 100 / player_poss
      STL100 := s.STL.orZero * 100 / player_poss
      BLK100 := s.BLK.orZero * 100 / player_poss
      TOV100 := s.TOV.orZero * 100 / player_poss
      PF100 := s.PF.orZero * 100 / player_poss
      PM100 := s.PLUS_MINUS.orZero * 100 / player_poss }

/-- True-shooting attempts `TSA = FGA + 0.44 * FTA` as computed inside
`calculate_true_shooting` (line 88). -/
def TSA (s : PlayerStatLine) : ℚ :=
  s.FGA.orZero + 44 / 100 * s.FTA.orZero

/-- Embeds `calculate_true_shooting` (lines 71-93): `PTS / (2 * TSA)` when
`TSA > 0`, else `0.0`. -/
def calculate_true_shooting (s : PlayerStatLine) : ℚ :=
  if TSA s ≤ 0 then 0 else s.PTS.orZero / (2 * TSA s)

/-- Embeds `assign_position_group` (lines 95-115).  The rebound and assist
reads use plain `stats_dict.get(k, 0)` (and `stats_dict.get('GP', 1)`)
without the `or 0` coercion, so a key bound to `None` raises `TypeError`
in the arithmetic; this is modelled by the `Option` monad. -/
def assign_position_group (s : PlayerStatLine) : Option PosGroup := do
  let oreb ← s.OREB.num 0
  let dreb ← s.DREB.num 0
  let gp ← s.GP.num 1
  let ast ← s.AST.num 0
  let reb_per_game := (oreb + dreb) / max gp 1
  let ast_per_game := ast / max gp 1
  if 7 ≤ reb_per_game then pure .BIG
  else if 4 ≤ ast_per_game then pure .GUARD
  else pure .WING

/-- Defensive per-100 rates returned by `calculate_defensive_per_100_stats`. -/
structure Def100 where
  DRB100 : ℚ
  STL100 : ℚ
  BLK100 : ℚ
  PF100 : ℚ
deriving DecidableEq

/-- Embeds `calculate_defensive_per_100_stats` (lines 117-138). -/
def calculate_defensive_per_100_stats (s : PlayerStatLine) : Def100 :=
  let minutes := s.MIN.orZero
  let player_poss := calculate_player_possessions minutes
  if player_poss ≤ 0 then
    { DRB100 := 0, STL100 := 0, BLK100 := 0, PF100 := 0 }
  else
    { DRB100 := s.DREB.orZero * 100 / player_poss
      STL100 := s.STL.orZero * 100 / player_poss
      BLK100 := s.BLK.orZero * 100 / player_poss
      PF100 := s.PF.orZero * 100 / player_poss }

/-- Applies a fallible operation to each list element in order,
short-circuiting on the first exception, as a Python `for` loop does. -/
def mapOption {α β : Type} (f : α → Option β) : List α → Option (List β)
  | [] => some []
  | a :: as => do
    let b ← f a
    let bs ← mapOption f as
    pure (b :: bs)

/-- Qualification test of `calculate_position_based_z_scores` (line 156):
`(p.get('MIN', 0) or 0) >= min_minutes`. -/
def qualifies (min_minutes : ℚ) (p : PlayerStatLine) : Bool :=
  min_minutes ≤ p.MIN.orZero

/-- Writes the `POSITION_GROUP` key of a player dict, as done at line 157
(in place on qualified players) and at line 161 (on fresh copies in the
zero-qualifier fallback).  Propagates the `TypeError` that
`assign_position_group` raises on null fields. -/
def setPosition (p : PlayerStatLine) : Option PlayerStatLine := do
  let g ← assign_position_group p
  pure { p with POSITION_GROUP := some g }

/-- First pass of `calculate_position_based_z_scores` (lines 154-158): each
qualified player dict is mutated in place by adding its `POSITION_GROUP`;
unqualified dicts are untouched.  The result is the state of the
caller-supplied list after the loop. -/
def pass1 (min_minutes : ℚ) (pop : List PlayerStatLine) : Option (List PlayerStatLine) :=
  mapOption (fun p => if qualifies min_minutes p then setPosition p else pure p) pop

/-- Lines 154-161: the qualified players (aliases into the updated list), or,
when none qualifies, position-annotated copies of the whole population. -/
def qualifiedOf (min_minutes : ℚ) (pop updated : List PlayerStatLine) :
    Option (List PlayerStatLine) :=
  let q := updated.filter (fun p => qualifies min_minutes p)
  if q.isEmpty then mapOption setPosition pop else some q

/-- Members of one position group among the qualified players
(lines 169-177): grouping is by the `POSITION_GROUP` key written in pass 1. -/
def groupMembers (qs : List PlayerStatLine) (g : PosGroup) : List PlayerStatLine :=
  qs.filter (fun p => p.POSITION_GROUP = some g)

/-- Mean of a list of values, as in `numpy.mean`: sum divided by length. -/
def listMean {α : Type} [DivisionRing α] (l : List α) : α :=
  l.sum / l.length

/-- Population variance of a list: the square of `numpy.std` with its default
`ddof=0`, i.e. the mean of the squared deviations from the mean. -/
def listVar {α : Type} [DivisionRing α] (l : List α) : α :=
  listMean (l.map (fun x => (x - listMean l) ^ 2))

/-- Per-group defensive reference distribution stored in
`position_stats[pos]` (lines 186-196).  The Python dict stores the floored
standard deviation `max(np.std(values), 0.1)` under `<stat>_std`; a standard
deviation is a square root and is generally irrational, so this structure
keeps the exact variance and the stored `<stat>_std` value is characterised
relationally by `IsFlooredStd <stat>_var (1/10)`. -/
structure DefDist where
  DRB100_mean : ℚ
  DRB100_var : ℚ
  STL100_mean : ℚ
  STL100_var : ℚ
  BLK100_mean : ℚ
  BLK100_var : ℚ
  PF100_mean : ℚ
  PF100_var : ℚ
deriving DecidableEq

/-- Defensive means and variances of one position group (lines 186-196). -/
def defDistOf (ms : List PlayerStatLine) : DefDist :=
  let ds := ms.map calculate_defensive_per_100_stats
  { DRB100_mean := listMean (ds.map Def100.DRB100)
    DRB100_var := listVar (ds.map Def100.DRB100)
    STL100_mean := listMean (ds.map Def100.STL100)
    STL100_var := listVar (ds.map Def100.STL100)
    BLK100_mean := listMean (ds.map Def100.BLK100)
    BLK100_var := listVar (ds.map Def100.BLK100)
    PF100_mean := listMean (ds.map Def100.PF100)
    PF100_var := listVar (ds.map Def100.PF100) }

/-- The `position_stats` dict (lines 180-196): at most one entry per
position group; a group is absent when it was skipped. -/
structure PositionStats where
  GUARD : Option DefDist
  WING : Option DefDist
  BIG : Option DefDist
deriving DecidableEq

/-- Lookup `position_stats.get(position, {})` (line 312), with the empty
dict modelled as `none`. -/
def PositionStats.get : PositionStats → PosGroup → Option DefDist
  | ps, .GUARD => ps.GUARD
  | ps, .WING => ps.WING
  | ps, .BIG => ps.BIG

/-- Lines 182-196: a position group with fewer than 3 qualified members is
skipped (`continue`), producing no distribution for that group. -/
def posDistFor (qs : List PlayerStatLine) (g : PosGroup) : Option DefDist :=
  if (groupMembers qs g).length < 3 then none
  else some (defDistOf (groupMembers qs g))

/-- The full `position_stats` mapping built at lines 180-196. -/
def position_stats_of (qs : List PlayerStatLine) : PositionStats :=
  { GUARD := posDistFor qs .GUARD
    WING := posDistFor qs .WING
    BIG := posDistFor qs .BIG }

/-- The league-wide reference distribution built at lines 198-216.  As in
`DefDist`, each Python `<stat>_std` entry, `max(np.std(values), 0.1)`
(line 213), is represented by the exact variance `<stat>_var` and
characterised relationally by `IsFlooredStd <stat>_var (1/10)`. -/
structure LeagueStats where
  TS_mean : ℚ
  TS_var : ℚ
  PTS100_mean : ℚ
  PTS100_var : ℚ
  AST100_mean : ℚ
  AST100_var : ℚ
  ORB100_mean : ℚ
  ORB100_var : ℚ
  TOV100_mean : ℚ
  TOV100_var : ℚ
  PM100_mean : ℚ
  PM100_var : ℚ
  position_stats : PositionStats
deriving DecidableEq

/-- League-wide offensive and impact reference stats over the qualified
players (lines 198-216), plus the position-scoped defensive stats. -/
def league_of (qs : List PlayerStatLine) : LeagueStats :=
  let all_per_100 := qs.map calculate_per_100_stats
  let all_ts := qs.map calculate_true_shooting
  { TS_mean := listMean all_ts
    TS_var := listVar all_ts
    PTS100_mean := listMean (all_per_100.map Per100.PTS100)
    PTS100_var := listVar (all_per_100.map Per100.PTS100)
    AST100_mean := listMean (all_per_100.map Per100.AST100)
    AST100_var := listVar (all_per_100.map Per100.AST100)
    ORB100_mean := listMean (all_per_100.map Per100.ORB100)
    ORB100_var := listVar (all_per_100.map Per100.ORB100)
    TOV100_mean := listMean (all_per_100.map Per100.TOV100)
    TOV100_var := listVar (all_per_100.map Per100.TOV100)
    PM100_mean := listMean (all_per_100.map Per100.PM100)
    PM100_var := listVar (all_per_100.map Per100.PM100)
    position_stats := position_stats_of qs }

/-- Embeds `calculate_position_based_z_scores` (lines 140-218).  The first
component of the result is the caller-supplied population as it stands after
the call (the source mutates qualified dicts in place); the second is the
returned `league_stats`.  `none` is an exception escaping to the caller. -/
def calculate_position_based_z_scores (pop : List PlayerStatLine)
    (min_minutes : ℚ := 200) : Option (List PlayerStatLine × LeagueStats) := do
  let updated ← pass1 min_minutes pop
  let qs ← qualifiedOf min_minutes pop updated
  pure (updated, league_of qs)

/-- Characterises `numpy.std(values)` exactly: `s` is the non-negative real
square root of the population variance `v`. -/
def IsStd (v : ℝ) (s : ℝ) : Prop :=
  0 ≤ s ∧ s ^ 2 = v

/-- Characterises `max(numpy.std(values), eps)`, the floored standard
deviation the source stores and later divides by. -/
def IsFlooredStd (v eps : ℚ) (s : ℝ) : Prop :=
  ∃ t : ℝ, IsStd (v : ℝ) t ∧ s = max t (eps : ℝ)

/-- Embeds `calculate_dvibe_z` (lines 293-331) relationally: the result `r`
is determined by the player's position group and, when that group has a
stored distribution, by the four floored position-scoped standard
deviations; when the group has no distribution all four z-scores default
to `0.0`.  A `TypeError` in `assign_position_group` propagates: no result
satisfies the relation. -/
def DvibeZ (s : PlayerStatLine) (L : LeagueStats) (r : ℝ) : Prop :=
  ∃ g, assign_position_group s = some g ∧
    match L.position_stats.get g with
    | none => r = 0
    | some d =>
      ∃ sStl sBlk sDrb sPf : ℝ,
        IsFlooredStd d.STL100_var (1 / 10) sStl ∧
        IsFlooredStd d.BLK100_var (1 / 10) sBlk ∧
        IsFlooredStd d.DRB100_var (1 / 10) sDrb ∧
        IsFlooredStd d.PF100_var (1 / 10) sPf ∧
        r = 13 / 10 * ((((calculate_defensive_per_100_stats s).STL100 - d.STL100_mean : ℚ) : ℝ) / sStl)
          + 11 / 10 * ((((calculate_defensive_per_100_stats s).BLK100 - d.BLK100_mean : ℚ) : ℝ) / sBlk)
          + 5 / 10 * ((((calculate_defensive_per_100_stats s).DRB100 - d.DRB100_mean : ℚ) : ℝ) / sDrb)
          - 1 * ((((calculate_defensive_per_100_stats s).PF100 - d.PF100_mean : ℚ) : ℝ) / sPf)

/-- The minutes-based shrink factor of `calculate_vibe_advanced`
(lines 432-433): `minutes / (minutes + 600)`. -/
def shrink_factor (minutes : ℚ) : ℚ :=
  minutes / (minutes + 600)

/-- Line 434 of `calculate_vibe_advanced`: `vibe_shrunk = vibe_raw *
shrink_factor`. -/
def vibe_shrunk (vibe_raw minutes : ℚ) : ℚ :=
  vibe_raw * shrink_factor minutes

/-- Embeds `calculate_vibe_box_score` (lines 375-403): with non-positive
minutes it returns `0.0` before anything else runs; with positive minutes
it calls `calculate_offensive_raw` (line 393), a name defined nowhere in
this repository, so the call raises `NameError` (modelled as `none`).
This is the path `calculate_vibe_advanced` takes when `league_stats` is
omitted or `None` (lines 416-418). -/
def calculate_vibe_box_score (s : PlayerStatLine) : Option ℚ :=
  if s.MIN.orZero ≤ 0 then some 0 else none

/-- One entry of the `vibe_results` list: the dict returned by
`calculate_vibe_advanced` (lines 436-445).  Numeric values produced by the
pipeline are Python floats, modelled as rationals.  `VIBE` is the key added
later by `calculate_final_vibe_scores` (absent until then); its value
involves a real square root, hence `Option ℝ`. -/
structure VibeResult where
  OVIBE : ℚ := 0
  DVIBE : ℚ := 0
  Impact : ℚ := 0
  Skill : ℚ := 0
  VIBE_raw : ℚ := 0
  VIBE_shrunk : ℚ := 0
  minutes : ℚ := 0
  shrink_factor : ℚ := 0
  VIBE : Option ℝ := none

/-- Embeds `calculate_final_vibe_scores` (lines 447-477) relationally.  An
empty list is returned unchanged with no statistics computed; otherwise
`s0` is `numpy.std` of the `VIBE_shrunk` values (replaced by `1.0` when
non-positive, line 469-470) and every element of the same list gets its
`VIBE` key set to `round(100 + 15 * (shrunk - mean) / std, 1)`, all other
keys unchanged.  Python's `round` rounds ties to even while Mathlib's
`round` used here rounds them up; a tie can only occur at an exact
multiple of 1/20, and every claim proved about this relation is insensitive
to the choice (both stay within 1/20 of the unrounded value). -/
def calculate_final_vibe_scores (results out : List VibeResult) : Prop :=
  if results.isEmpty then out = results
  else
    ∃ s0 : ℝ, IsStd ((listVar (results.map VibeResult.VIBE_shrunk) : ℚ) : ℝ) s0 ∧
      out = results.map (fun r =>
        { r with VIBE := some (((round ((10 : ℝ) *
            (100 + 15 * ((r.VIBE_shrunk : ℝ) -
              ((listMean (results.map VibeResult.VIBE_shrunk) : ℚ) : ℝ)) /
              (if s0 ≤ 0 then 1 else s0))) : ℤ) : ℝ) / 10) })

/-- The final `VIBE` values present in a result list. -/
def finalVibes (l : List VibeResult) : List ℝ :=
  l.filterMap VibeResult.VIBE

/-- Mean of a finite indexed family; used to restate the list statistics
through index-based sums. -/
def fmean {α : Type} [DivisionRing α] (n : ℕ) (x : Fin n → α) : α :=
  (∑ i, x i) / n

/-- Population variance of a finite indexed family. -/
def fvar {α : Type} [DivisionRing α] (n : ℕ) (x : Fin n → α) : α :=
  fmean n (fun i => (x i - fmean n x) ^ 2)

/-- Concrete population for the C1 counterexample: three identical qualified
players, so every league-wide standard deviation is 0 before flooring. -/
def pC1 : PlayerStatLine :=
  { MIN := .val 240, OREB := .val 0, DREB := .val 0, AST := .val 0, GP := .val 1 }

/-- The state of `pC1` after the builder has annotated it in place. -/
def pC1q : PlayerStatLine := { pC1 with POSITION_GROUP := some .WING }

/-- All-zero defensive distribution (three identical all-zero members). -/
def DDzero : DefDist := ⟨0, 0, 0, 0, 0, 0, 0, 0⟩

/-- League stats the builder returns on `[pC1, pC1, pC1]`. -/
def LC1 : LeagueStats := ⟨0, 0, 0, 0, 0, 0, 0, 0, 0, 0, 0, 0, ⟨none, some DDzero, none⟩⟩

/-- Failing input for C2: a qualified player whose `OREB` key is `None`,
which makes `assign_position_group` raise `TypeError`. -/
def pC2 : PlayerStatLine := { MIN := .val 300, OREB := .null }

/-- Failing input for C2's box-score path: positive minutes reach the
undefined `calculate_offensive_raw` call (`NameError`). -/
def pC2b : PlayerStatLine := { MIN := .val 240 }

/-- Concrete qualified player for the C3 counterexample. -/
def pC3 : PlayerStatLine :=
  { MIN := .val 200, OREB := .val 0, DREB := .val 0, AST := .val 0, GP := .val 1 }

/-- The state of `pC3` after the builder has annotated it in place. -/
def pC3q : PlayerStatLine := { pC3 with POSITION_GROUP := some .WING }

/-- League stats the builder returns on `[pC3]` (its WING group has only one
member, so no position distribution is produced). -/
def LC3 : LeagueStats := ⟨0, 0, 0, 0, 0, 0, 0, 0, 0, 0, 0, 0, ⟨none, none, none⟩⟩

/-- Player with minutes=240 and PTS=20 (rate-conversion test case). -/
def pC5a : PlayerStatLine := { MIN := .val 240, PTS := .val 20 }

/-- Player with minutes=0 and PTS=10 (zero-minutes guard test case). -/
def pC5b : PlayerStatLine := { MIN := .val 0, PTS := .val 10 }

/-- Player with reb_per_game=8.0 and ast_per_game=5.0 (priority test case). -/
def pC6 : PlayerStatLine := { OREB := .val 8, DREB := .val 0, AST := .val 5, GP := .val 1 }

/-- Qualified WING for the C7 witness population. -/
def pC7 : PlayerStatLine :=
  { MIN := .val 240, OREB := .val 0, DREB := .val 0, AST := .val 0, GP := .val 1 }

/-- The state of `pC7` after the builder has annotated it in place. -/
def pC7q : PlayerStatLine := { pC7 with POSITION_GROUP := some .WING }

/-- A GUARD-classified player scored against a population whose GUARD group
has no distribution. -/
def pC7g : PlayerStatLine := { OREB := .val 0, DREB := .val 0, AST := .val 40, GP := .val 10 }

/-- Player with FGA=0 and FTA=0 (true-shooting boundary case). -/
def pC10 : PlayerStatLine := { PTS := .val 30, FGA := .val 0, FTA := .val 0 }

/-- Player with positive true-shooting attempts. -/
def pC10b : PlayerStatLine := { PTS := .val 20, FGA := .val 10 }

/-- A vibe result with all numeric keys 0 and no final `VIBE` yet. -/
def rV0 : VibeResult := {}

/-- A vibe result with `VIBE_shrunk = 2` and no final `VIBE` yet. -/
def rV2 : VibeResult := { VIBE_shrunk := 2 }

/-- Output of the normalizer on `[rV0]`. -/
def outC9 : List VibeResult := [{ rV0 with VIBE := some 100 }]

/-- Two-element population with `VIBE_shrunk` values 0 and 2. -/
def rsC4 : List VibeResult := [rV0, rV2]

/-- Output of the normalizer on `rsC4`. -/
def outC4 : List VibeResult := [{ rV0 with VIBE := some 85 }, { rV2 with VIBE := some 115 }]

/-- Output of the normalizer on the singleton `[rV0]` (used to refute the
universal form of the rescale invariant). -/
def outC4x : List VibeResult := [{ rV0 with VIBE := some 100 }]

/-- Possessions are always strictly positive after the clamp. -/
theorem calculate_player_possessions_pos (m : ℚ) : 0 < calculate_player_possessions m := by
  unfold calculate_player_possessions
  split
  · norm_num
  · rename_i h
    push_neg at h
    exact div_pos (mul_pos h (by norm_num)) (by norm_num)

/-- C2: the claim that no core operation ever raises is violated by the code.
On `pC2` (a qualified player whose `OREB` is `None`) the position classifier
raises `TypeError` (`None + 0`), and so does the distribution builder that
calls it; and with `league_stats` omitted, `calculate_vibe_advanced` falls
back to `calculate_vibe_box_score`, which for any positive-minutes player
calls the nowhere-defined `calculate_offensive_raw` and raises `NameError`. -/
theorem C2_exceptions_escape :
    assign_position_group pC2 = none ∧
    calculate_position_based_z_scores [pC2] 200 = none ∧
    calculate_vibe_box_score pC2b = none := by
  refine ⟨?_, ?_, ?_⟩ <;>
    norm_num +decide [assign_position_group, pC2, pC2b, StatVal.num, StatVal.orZero,
      bind, Option.bind, calculate_position_based_z_scores, pass1, mapOption,
      qualifies, setPosition, qualifiedOf, calculate_vibe_box_score]

/-- C5: possessions equal `minutes * 100 / 240` for positive minutes and
clamp to 1 for non-positive minutes; every per-100 rate is the raw stat
(missing or null fields coerced to 0) times `100 / possessions`; in
particular minutes=240, PTS=20 gives possessions=100 and PTS100=20, and
minutes=0, PTS=10 gives PTS100=1000. -/
theorem C5_possessions_and_rates (m1 m2 : ℚ) (p : PlayerStatLine)
    (hm1 : 0 < m1) (hm2 : m2 ≤ 0) :
    calculate_player_possessions m1 = m1 * 100 / 240 ∧
    calculate_player_possessions m2 = 1 ∧
    ((calculate_per_100_stats p).PTS100
        = p.PTS.orZero * 100 / calculate_player_possessions p.MIN.orZero ∧
      (calculate_per_100_stats p).AST100
        = p.AST.orZero * 100 / calculate_player_possessions p.MIN.orZero ∧
      (calculate_per_100_stats p).ORB100
        = p.OREB.orZero * 100 / calculate_player_possessions p.MIN.orZero ∧
      (calculate_per_100_stats p).DRB100
        = p.DREB.orZero * 100 / calculate_player_possessions p.MIN.orZero ∧
      (calculate_per_100_stats p).STL100
        = p.STL.orZero * 100 / calculate_player_possessions p.MIN.orZero ∧
      (calculate_per_100_stats p).BLK100
        = p.BLK.orZero * 100 / calculate_player_possessions p.MIN.orZero ∧
      (calculate_per_100_stats p).TOV100
        = p.TOV.orZero * 100 / calculate_player_possessions p.MIN.orZero ∧
      (calculate_per_100_stats p).PF100
        = p.PF.orZero * 100 / calculate_player_possessions p.MIN.orZero ∧
      (calculate_per_100_stats p).PM100
        = p.PLUS_MINUS.orZero * 100 / calculate_player_possessions p.MIN.orZero) ∧
    calculate_player_possessions 240 = 100 ∧
    (calculate_per_100_stats pC5a).PTS100 = 20 ∧
    (calculate_per_100_stats pC5b).PTS100 = 1000 := by
  have hne : ¬ calculate_player_possessions p.MIN.orZero ≤ 0 :=
    not_le.mpr (calculate_player_possessions_pos _)
  refine ⟨?_, ?_, ?_, ?_, ?_, ?_⟩
  · rw [calculate_player_possessions, if_neg (not_le.mpr hm1)]
  · rw [calculate_player_possessions, if_pos hm2]
  · simp only [calculate_per_100_stats, if_neg hne]
    simp
  · norm_num [calculate_player_possessions]
  · norm_num [calculate_per_100_stats, calculate_player_possessions, pC5a, StatVal.orZero]
  · norm_num [calculate_per_100_stats, calculate_player_possessions, pC5b, StatVal.orZero]

/-- C6: on numeric fields the position classifier returns exactly
`BIG` when `(OREB+DREB)/max(GP,1) >= 7`, else `GUARD` when
`AST/max(GP,1) >= 4`, else `WING` (rebound check first), and the player
with reb_per_game=8 and ast_per_game=5 is classified `BIG`. -/
theorem C6_position_classifier (p : PlayerStatLine) (oreb dreb gp ast : ℚ)
    (ho : p.OREB.num 0 = some oreb) (hd : p.DREB.num 0 = some dreb)
    (hg : p.GP.num 1 = some gp) (ha : p.AST.num 0 = some ast) :
    assign_position_group p =
      some (if 7 ≤ (oreb + dreb) / max gp 1 then .BIG
        else if 4 ≤ ast / max gp 1 then .GUARD else .WING) ∧
    assign_position_group pC6 = some .BIG := by
  constructor
  · rw [assign_position_group, ho, hd, hg, ha]
    simp only [Option.bind_eq_bind, Option.some_bind]
    split_ifs <;> rfl
  · norm_num [assign_position_group, pC6, StatVal.num, bind, Option.bind]

/-- C8: the shrink factor is `minutes / (minutes + 600)`, `shrink(600) = 1/2`
exactly, and for fixed positive `VIBE_raw` the shrunk score is strictly
increasing in minutes over `minutes ≥ 0`. -/
theorem C8_shrinkage (raw m1 m2 : ℚ) (hraw : 0 < raw) (h1 : 0 ≤ m1) (h12 : m1 < m2) :
    shrink_factor 600 = 1 / 2 ∧ vibe_shrunk raw m1 < vibe_shrunk raw m2 := by
  constructor
  · norm_num [shrink_factor]
  · unfold vibe_shrunk shrink_factor
    have h2 : (0 : ℚ) < m1 + 600 := by linarith
    have h3 : (0 : ℚ) < m2 + 600 := by linarith
    have hlt : m1 / (m1 + 600) < m2 / (m2 + 600) := by
      rw [div_lt_div_iff₀ h2 h3]
      nlinarith
    exact mul_lt_mul_of_pos_left hlt hraw

/-- C10: true shooting is `PTS / (2 * TSA)` when `TSA = FGA + 0.44*FTA` is
positive and `0.0` otherwise; in particular FGA=0, FTA=0 gives TS=0. -/
theorem C10_true_shooting (p q : PlayerStatLine) (hp : TSA p ≤ 0) (hq : 0 < TSA q) :
    calculate_true_shooting p = 0 ∧
    calculate_true_shooting q = q.PTS.orZero / (2 * TSA q) ∧
    calculate_true_shooting pC10 = 0 := by
  refine ⟨?_, ?_, ?_⟩
  · rw [calculate_true_shooting, if_pos hp]
  · rw [calculate_true_shooting, if_neg (not_le.mpr hq)]
  · norm_num [calculate_true_shooting, TSA, pC10, StatVal.orZero]

/-- Successful traversal of a cons: the head and the tail each succeed. -/
theorem mapOption_cons_eq_some {α β : Type} {f : α → Option β} {a : α} {as : List α}
    {l' : List β} (h : mapOption f (a :: as) = some l') :
    ∃ b bs, f a = some b ∧ mapOption f as = some bs ∧ l' = b :: bs := by
  simp only [mapOption, Option.bind_eq_bind, Option.bind_eq_some] at h
  obtain ⟨b, hb, h2⟩ := h
  obtain ⟨bs, hbs, h3⟩ := h2
  refine ⟨b, bs, hb, hbs, ?_⟩
  simpa [pure] using h3.symm

/-- A successful traversal preserves the length. -/
theorem mapOption_length {α β : Type} {f : α → Option β} :
    ∀ {l : List α} {l' : List β}, mapOption f l = some l' → l'.length = l.length := by
  intro l
  induction l with
  | nil =>
    intro l' h
    simp only [mapOption] at h
    simp [← Option.some.inj h]
  | cons a as ih =>
    intro l' h
    obtain ⟨b, bs, _, hbs, rfl⟩ := mapOption_cons_eq_some h
    simp [ih hbs]

/-- A successful traversal acts pointwise. -/
theorem mapOption_get {α β : Type} {f : α → Option β} :
    ∀ {l : List α} {l' : List β}, mapOption f l = some l' →
      ∀ i (hi : i < l.length) (hi' : i < l'.length),
        f (l.get ⟨i, hi⟩) = some (l'.get ⟨i, hi'⟩) := by
  intro l
  induction l with
  | nil =>
    intro l' h i hi
    exact absurd hi (by simp)
  | cons a as ih =>
    intro l' h i hi hi'
    obtain ⟨b, bs, hb, hbs, rfl⟩ := mapOption_cons_eq_some h
    cases i with
    | zero => simpa using hb
    | succ n =>
      simpa using ih hbs n (by simpa using hi) (by simpa using hi')

/-- C3 (amended): the claim of an unmutated input fails; what holds instead
is that the builder writes the `POSITION_GROUP` key into each
minutes-qualified input record (in place) and returns every other record,
and every statistic field, unchanged. -/
theorem C3_builder_mutates_only_position (pop : List PlayerStatLine) (mm : ℚ)
    (pop' : List PlayerStatLine) (L : LeagueStats)
    (h : calculate_position_based_z_scores pop mm = some (pop', L))
    (i : ℕ) (hi : i < pop.length) (hi' : i < pop'.length) :
    pop'.length = pop.length ∧
    pop'.get ⟨i, hi'⟩ =
      (if qualifies mm (pop.get ⟨i, hi⟩) then
        { pop.get ⟨i, hi⟩ with
            POSITION_GROUP := assign_position_group (pop.get ⟨i, hi⟩) }
      else pop.get ⟨i, hi⟩) := by
  have hu : pass1 mm pop = some pop' := by
    simp only [calculate_position_based_z_scores, Option.bind_eq_bind,
      Option.bind_eq_some, pure] at h
    obtain ⟨u, hu, qs, hqs, hEq⟩ := h
    obtain ⟨h1, h2⟩ := Prod.mk.injEq .. ▸ Option.some.inj hEq
    exact h1 ▸ hu
  refine ⟨mapOption_length hu, ?_⟩
  have hpt := mapOption_get hu i hi hi'
  by_cases hqual : qualifies mm (pop.get ⟨i, hi⟩) = true
  · rw [if_pos hqual]
    rw [if_pos hqual] at hpt
    simp only [setPosition, Option.bind_eq_bind, Option.bind_eq_some] at hpt
    obtain ⟨g, hg, hpure⟩ := hpt
    have h2 : some ({ pop.get ⟨i, hi⟩ with POSITION_GROUP := some g } : PlayerStatLine)
        = some (pop'.get ⟨i, hi'⟩) := hpure
    rw [hg]
    exact (Option.some.inj h2).symm
  · rw [if_neg hqual]
    rw [if_neg hqual] at hpt
    have h2 : some (pop.get ⟨i, hi⟩) = some (pop'.get ⟨i, hi'⟩) := hpt
    exact (Option.some.inj h2).symm

/-- C3, counterexample: on the singleton population `[pC3]` (200 minutes, so
qualified) the builder returns the input record with a `POSITION_GROUP`
field added, i.e. the caller-supplied record has been changed. -/
theorem C3_counterexample :
    calculate_position_based_z_scores [pC3] 200 = some ([pC3q], LC3) ∧
    pC3q ≠ pC3 := by
  constructor
  · norm_num +decide [calculate_position_based_z_scores, pass1, mapOption, qualifies,
      setPosition, assign_position_group, StatVal.num, StatVal.orZero, qualifiedOf,
      groupMembers, league_of, position_stats_of, posDistFor, defDistOf, listMean,
      listVar, calculate_per_100_stats, calculate_defensive_per_100_stats,
      calculate_true_shooting, TSA, calculate_player_possessions, pC3, pC3q, LC3,
      bind, Option.bind, List.filter]
  · simp [pC3, pC3q]

/-- Witness for C3's amended theorem at the concrete population `[pC3]`. -/
theorem C3_witness :
    [pC3q].length = [pC3].length ∧
    [pC3q].get ⟨0, by norm_num⟩ =
      (if qualifies 200 ([pC3].get ⟨0, by norm_num⟩) then
        { [pC3].get ⟨0, by norm_num⟩ with
            POSITION_GROUP := assign_position_group ([pC3].get ⟨0, by norm_num⟩) }
      else [pC3].get ⟨0, by norm_num⟩) :=
  C3_builder_mutates_only_position [pC3] 200 [pC3q] LC3
    (by norm_num +decide [calculate_position_based_z_scores, pass1, mapOption, qualifies,
      setPosition, assign_position_group, StatVal.num, StatVal.orZero, qualifiedOf,
      groupMembers, league_of, position_stats_of, posDistFor, defDistOf, listMean,
      listVar, calculate_per_100_stats, calculate_defensive_per_100_stats,
      calculate_true_shooting, TSA, calculate_player_possessions, pC3, pC3q, LC3,
      bind, Option.bind, List.filter])
    0 (by norm_num) (by norm_num)

/-- C1 (amended): the live builder floors the league-wide standard
deviations with `max(np.std(values), 0.1)` (line 213), the same 0.1 floor
used for the position-scoped defensive stats (line 196); the claimed 1.0
floor appears only in unreachable dead code after the builder's `return`.
Hence every stored league-wide `<stat>_std` value is at least 0.1 (not 1.0). -/
theorem C1_league_std_floor (pop : List PlayerStatLine) (mm : ℚ)
    (pop' : List PlayerStatLine) (L : LeagueStats)
    (h : calculate_position_based_z_scores pop mm = some (pop', L))
    (s1 s2 s3 s4 s5 s6 : ℝ)
    (h1 : IsFlooredStd L.TS_var (1 / 10) s1)
    (h2 : IsFlooredStd L.PTS100_var (1 / 10) s2)
    (h3 : IsFlooredStd L.AST100_var (1 / 10) s3)
    (h4 : IsFlooredStd L.ORB100_var (1 / 10) s4)
    (h5 : IsFlooredStd L.TOV100_var (1 / 10) s5)
    (h6 : IsFlooredStd L.PM100_var (1 / 10) s6) :
    1 / 10 ≤ s1 ∧ 1 / 10 ≤ s2 ∧ 1 / 10 ≤ s3 ∧
      1 / 10 ≤ s4 ∧ 1 / 10 ≤ s5 ∧ 1 / 10 ≤ s6 := by
  have key : ∀ (v : ℚ) (s : ℝ), IsFlooredStd v (1 / 10) s → 1 / 10 ≤ s := by
    rintro v s ⟨t, _, rfl⟩
    calc (1 : ℝ) / 10 = (((1 : ℚ) / 10 : ℚ) : ℝ) := by norm_num
    _ ≤ max t (((1 : ℚ) / 10 : ℚ) : ℝ) := le_max_right _ _
  exact ⟨key _ _ h1, key _ _ h2, key _ _ h3, key _ _ h4, key _ _ h5, key _ _ h6⟩

/-- C1, counterexample: on a population of three identical qualified players
every league-wide variance is 0, so the stored `TS_std` is
`max(0, 0.1) = 0.1 < 1.0`: the claim that every league-wide `<stat>_std`
is at least 1.0 is false. -/
theorem C1_counterexample :
    calculate_position_based_z_scores [pC1, pC1, pC1] 200 =
        some ([pC1q, pC1q, pC1q], LC1) ∧
    IsFlooredStd LC1.TS_var (1 / 10) (1 / 10) ∧
    ¬ (∀ s : ℝ, IsFlooredStd LC1.TS_var (1 / 10) s → 1 ≤ s) := by
  have hstd : IsFlooredStd LC1.TS_var (1 / 10) (1 / 10) := by
    refine ⟨0, ⟨le_refl 0, ?_⟩, ?_⟩
    · norm_num [LC1]
    · norm_num
  refine ⟨?_, hstd, ?_⟩
  · norm_num +decide [calculate_position_based_z_scores, pass1, mapOption, qualifies,
      setPosition, assign_position_group, StatVal.num, StatVal.orZero, qualifiedOf,
      groupMembers, league_of, position_stats_of, posDistFor, defDistOf, listMean,
      listVar, calculate_per_100_stats, calculate_defensive_per_100_stats,
      calculate_true_shooting, TSA, calculate_player_possessions, pC1, pC1q, LC1,
      DDzero, bind, Option.bind, List.filter]
  · intro hall
    have := hall (1 / 10) hstd
    norm_num at this

/-- Witness for C1's amended theorem at the concrete three-player
population. -/
theorem C1_witness :
    1 / 10 ≤ max 0 (((1 : ℚ) / 10 : ℚ) : ℝ) ∧ 1 / 10 ≤ max 0 (((1 : ℚ) / 10 : ℚ) : ℝ) ∧
      1 / 10 ≤ max 0 (((1 : ℚ) / 10 : ℚ) : ℝ) ∧ 1 / 10 ≤ max 0 (((1 : ℚ) / 10 : ℚ) : ℝ) ∧
      1 / 10 ≤ max 0 (((1 : ℚ) / 10 : ℚ) : ℝ) ∧ 1 / 10 ≤ max 0 (((1 : ℚ) / 10 : ℚ) : ℝ) := by
  have hstd : ∀ v : ℚ, v = 0 → IsFlooredStd v (1 / 10) (max 0 (((1 : ℚ) / 10 : ℚ) : ℝ)) := by
    rintro v rfl
    exact ⟨0, ⟨le_refl 0, by norm_num⟩, rfl⟩
  exact C1_league_std_floor [pC1, pC1, pC1] 200 [pC1q, pC1q, pC1q] LC1
    (by norm_num +decide [calculate_position_based_z_scores, pass1, mapOption, qualifies,
      setPosition, assign_position_group, StatVal.num, StatVal.orZero, qualifiedOf,
      groupMembers, league_of, position_stats_of, posDistFor, defDistOf, listMean,
      listVar, calculate_per_100_stats, calculate_defensive_per_100_stats,
      calculate_true_shooting, TSA, calculate_player_possessions, pC1, pC1q, LC1,
      DDzero, bind, Option.bind, List.filter])
    _ _ _ _ _ _
    (hstd _ rfl) (hstd _ rfl) (hstd _ rfl) (hstd _ rfl) (hstd _ rfl) (hstd _ rfl)

/-- C7: a position group with fewer than 3 qualified members gets no
defensive distribution from the builder, and for any player classified into
such a group the defensive z-score composer makes all four defensive
z-scores default, so the only DVIBE value it can produce is exactly 0
(and 0 is indeed produced, rather than an exception or a league-wide
fallback). -/
theorem C7_small_group_dvibe (pop : List PlayerStatLine) (mm : ℚ)
    (updated qs : List PlayerStatLine) (g : PosGroup) (p : PlayerStatLine) (r : ℝ)
    (hu : pass1 mm pop = some updated)
    (hq : qualifiedOf mm pop updated = some qs)
    (hcount : (groupMembers qs g).length < 3)
    (hp : assign_position_group p = some g)
    (hr : DvibeZ p (league_of qs) r) :
    calculate_position_based_z_scores pop mm = some (updated, league_of qs) ∧
    (league_of qs).position_stats.get g = none ∧
    r = 0 ∧
    DvibeZ p (league_of qs) 0 := by
  have hnone : (league_of qs).position_stats.get g = none := by
    have hps : (league_of qs).position_stats = position_stats_of qs := rfl
    cases g <;>
      simp [hps, PositionStats.get, position_stats_of, posDistFor, if_pos hcount]
  refine ⟨?_, hnone, ?_, ?_⟩
  · simp [calculate_position_based_z_scores, hu, hq, pure]
  · obtain ⟨g2, hg2, hm⟩ := hr
    rw [hp] at hg2
    obtain rfl := Option.some.inj hg2
    rw [hnone] at hm
    exact hm
  · refine ⟨g, hp, ?_⟩
    rw [hnone]

/-- Witness for C7 at a population of three qualified WINGs and a
GUARD-classified player. -/
theorem C7_witness :
    calculate_position_based_z_scores [pC7, pC7, pC7] 200 =
        some ([pC7q, pC7q, pC7q], league_of [pC7q, pC7q, pC7q]) ∧
    (league_of [pC7q, pC7q, pC7q]).position_stats.get .GUARD = none ∧
    (0 : ℝ) = 0 ∧
    DvibeZ pC7g (league_of [pC7q, pC7q, pC7q]) 0 := by
  have hGnone : (league_of [pC7q, pC7q, pC7q]).position_stats.get .GUARD = none := by
    norm_num +decide [league_of, position_stats_of, posDistFor, groupMembers,
      PositionStats.get, pC7q, pC7, List.filter]
  have hp : assign_position_group pC7g = some .GUARD := by
    norm_num [assign_position_group, pC7g, StatVal.num, bind, Option.bind]
  have hr : DvibeZ pC7g (league_of [pC7q, pC7q, pC7q]) 0 := by
    refine ⟨.GUARD, hp, ?_⟩
    rw [hGnone]
  exact C7_small_group_dvibe [pC7, pC7, pC7] 200 [pC7q, pC7q, pC7q] [pC7q, pC7q, pC7q]
    .GUARD pC7g 0
    (by norm_num +decide [pass1, mapOption, qualifies, setPosition, assign_position_group,
      StatVal.num, StatVal.orZero, pC7, pC7q, bind, Option.bind])
    (by norm_num +decide [qualifiedOf, mapOption, qualifies, StatVal.orZero, pC7, pC7q,
      List.filter])
    (by norm_num +decide [groupMembers, pC7q, pC7, List.filter])
    hp hr

/-- The non-negative square root of a rational is unique. -/
theorem IsStd_unique {v : ℝ} {s t : ℝ} (hs : IsStd v s) (ht : IsStd v t) : s = t := by
  obtain ⟨hs0, hs2⟩ := hs
  obtain ⟨ht0, ht2⟩ := ht
  have hsq : s ^ 2 = t ^ 2 := by rw [hs2, ht2]
  refine le_antisymm ?_ ?_ <;> nlinarith

/-- C9: the league normalizer computes the mean and standard deviation of
the `VIBE_shrunk` values, replaces a non-positive standard deviation by 1.0,
writes into each element the `VIBE` key `round(100 + 15*(shrunk - mean)/std, 1)`
while changing no other field, and returns an empty input unchanged with no
statistics computed. -/
theorem C9_league_normalizer (rs out : List VibeResult)
    (h : calculate_final_vibe_scores rs out) (hne : rs ≠ [])
    (i : ℕ) (hi : i < rs.length) (hi' : i < out.length)
    (s0 : ℝ) (hs0 : IsStd ((listVar (rs.map VibeResult.VIBE_shrunk) : ℚ) : ℝ) s0)
    (outE : List VibeResult) (hE : calculate_final_vibe_scores [] outE) :
    out.length = rs.length ∧
    (out.get ⟨i, hi'⟩).OVIBE = (rs.get ⟨i, hi⟩).OVIBE ∧
    (out.get ⟨i, hi'⟩).DVIBE = (rs.get ⟨i, hi⟩).DVIBE ∧
    (out.get ⟨i, hi'⟩).Impact = (rs.get ⟨i, hi⟩).Impact ∧
    (out.get ⟨i, hi'⟩).Skill = (rs.get ⟨i, hi⟩).Skill ∧
    (out.get ⟨i, hi'⟩).VIBE_raw = (rs.get ⟨i, hi⟩).VIBE_raw ∧
    (out.get ⟨i, hi'⟩).VIBE_shrunk = (rs.get ⟨i, hi⟩).VIBE_shrunk ∧
    (out.get ⟨i, hi'⟩).minutes = (rs.get ⟨i, hi⟩).minutes ∧
    (out.get ⟨i, hi'⟩).shrink_factor = (rs.get ⟨i, hi⟩).shrink_factor ∧
    (out.get ⟨i, hi'⟩).VIBE = some (((round ((10 : ℝ) *
        (100 + 15 * (((rs.get ⟨i, hi⟩).VIBE_shrunk : ℝ) -
          ((listMean (rs.map VibeResult.VIBE_shrunk) : ℚ) : ℝ)) /
          (if s0 ≤ 0 then 1 else s0))) : ℤ) : ℝ) / 10) ∧
    outE = [] := by
  have hEmpty : outE = [] := by
    simpa [calculate_final_vibe_scores] using hE
  rw [calculate_final_vibe_scores, if_neg (by simpa using hne)] at h
  obtain ⟨s1, hs1, hout⟩ := h
  obtain rfl : s0 = s1 := IsStd_unique hs0 hs1
  subst hout
  simp only [List.get_eq_getElem, List.getElem_map, List.length_map]
  simp [hEmpty]

/-- Witness for C9 at the singleton population `[rV0]`. -/
theorem C9_witness :
    outC9.length = [rV0].length ∧
    (outC9.get ⟨0, by norm_num [outC9]⟩).OVIBE = ([rV0].get ⟨0, by norm_num⟩).OVIBE ∧
    (outC9.get ⟨0, by norm_num [outC9]⟩).DVIBE = ([rV0].get ⟨0, by norm_num⟩).DVIBE ∧
    (outC9.get ⟨0, by norm_num [outC9]⟩).Impact = ([rV0].get ⟨0, by norm_num⟩).Impact ∧
    (outC9.get ⟨0, by norm_num [outC9]⟩).Skill = ([rV0].get ⟨0, by norm_num⟩).Skill ∧
    (outC9.get ⟨0, by norm_num [outC9]⟩).VIBE_raw = ([rV0].get ⟨0, by norm_num⟩).VIBE_raw ∧
    (outC9.get ⟨0, by norm_num [outC9]⟩).VIBE_shrunk = ([rV0].get ⟨0, by norm_num⟩).VIBE_shrunk ∧
    (outC9.get ⟨0, by norm_num [outC9]⟩).minutes = ([rV0].get ⟨0, by norm_num⟩).minutes ∧
    (outC9.get ⟨0, by norm_num [outC9]⟩).shrink_factor = ([rV0].get ⟨0, by norm_num⟩).shrink_factor ∧
    (outC9.get ⟨0, by norm_num [outC9]⟩).VIBE = some (((round ((10 : ℝ) *
        (100 + 15 * ((([rV0].get ⟨0, by norm_num⟩).VIBE_shrunk : ℝ) -
          ((listMean ([rV0].map VibeResult.VIBE_shrunk) : ℚ) : ℝ)) /
          (if (0 : ℝ) ≤ 0 then 1 else 0))) : ℤ) : ℝ) / 10) ∧
    ([] : List VibeResult) = [] := by
  have hs0 : IsStd ((listVar ([rV0].map VibeResult.VIBE_shrunk) : ℚ) : ℝ) 0 := by
    refine ⟨le_refl 0, ?_⟩
    norm_num [listVar, listMean, rV0]
  have hrel : calculate_final_vibe_scores [rV0] outC9 := by
    rw [calculate_final_vibe_scores, if_neg (by simp)]
    refine ⟨0, hs0, ?_⟩
    simp only [List.map, outC9]
    norm_num [rV0, listMean, round_ofNat]
  have hE : calculate_final_vibe_scores [] [] := by
    simp [calculate_final_vibe_scores]
  exact C9_league_normalizer [rV0] outC9 hrel (by simp) 0 (by norm_num)
    (by norm_num [outC9]) 0 hs0 [] hE

/-- Witness for C5 at minutes 240 and 0 and the concrete player `pC5a`. -/
theorem C5_witness :
    calculate_player_possessions 240 = 240 * 100 / 240 ∧
    calculate_player_possessions 0 = 1 ∧
    ((calculate_per_100_stats pC5a).PTS100
        = pC5a.PTS.orZero * 100 / calculate_player_possessions pC5a.MIN.orZero ∧
      (calculate_per_100_stats pC5a).AST100
        = pC5a.AST.orZero * 100 / calculate_player_possessions pC5a.MIN.orZero ∧
      (calculate_per_100_stats pC5a).ORB100
        = pC5a.OREB.orZero * 100 / calculate_player_possessions pC5a.MIN.orZero ∧
      (calculate_per_100_stats pC5a).DRB100
        = pC5a.DREB.orZero * 100 / calculate_player_possessions pC5a.MIN.orZero ∧
      (calculate_per_100_stats pC5a).STL100
        = pC5a.STL.orZero * 100 / calculate_player_possessions pC5a.MIN.orZero ∧
      (calculate_per_100_stats pC5a).BLK100
        = pC5a.BLK.orZero * 100 / calculate_player_possessions pC5a.MIN.orZero ∧
      (calculate_per_100_stats pC5a).TOV100
        = pC5a.TOV.orZero * 100 / calculate_player_possessions pC5a.MIN.orZero ∧
      (calculate_per_100_stats pC5a).PF100
        = pC5a.PF.orZero * 100 / calculate_player_possessions pC5a.MIN.orZero ∧
      (calculate_per_100_stats pC5a).PM100
        = pC5a.PLUS_MINUS.orZero * 100 / calculate_player_possessions pC5a.MIN.orZero) ∧
    calculate_player_possessions 240 = 100 ∧
    (calculate_per_100_stats pC5a).PTS100 = 20 ∧
    (calculate_per_100_stats pC5b).PTS100 = 1000 :=
  C5_possessions_and_rates 240 0 pC5a (by norm_num) (le_refl 0)

/-- Witness for C6 at the priority test player `pC6`. -/
theorem C6_witness :
    assign_position_group pC6 =
      some (if 7 ≤ ((8 : ℚ) + 0) / max 1 1 then .BIG
        else if 4 ≤ (5 : ℚ) / max 1 1 then .GUARD else .WING) ∧
    assign_position_group pC6 = some .BIG :=
  C6_position_classifier pC6 8 0 1 5 rfl rfl rfl rfl

/-- Witness for C8 at raw score 1 and minutes 0 and 600. -/
theorem C8_witness :
    shrink_factor 600 = 1 / 2 ∧ vibe_shrunk 1 0 < vibe_shrunk 1 600 :=
  C8_shrinkage 1 0 600 (by norm_num) (le_refl 0) (by norm_num)

/-- Witness for C10 at the boundary player `pC10` and the regular shooter
`pC10b`. -/
theorem C10_witness :
    calculate_true_shooting pC10 = 0 ∧
    calculate_true_shooting pC10b = pC10b.PTS.orZero / (2 * TSA pC10b) ∧
    calculate_true_shooting pC10 = 0 :=
  C10_true_shooting pC10 pC10b
    (by norm_num [TSA, pC10, StatVal.orZero])
    (by norm_num [TSA, pC10b, StatVal.orZero])

/-- Mean of a constant family. -/
theorem fmean_const (n : ℕ) (hn : 0 < n) (c : ℝ) : fmean n (fun _ => c) = c := by
  have hnR : (0 : ℝ) < n := by exact_mod_cast hn
  unfold fmean
  rw [Finset.sum_const, Finset.card_univ, Fintype.card_fin, nsmul_eq_mul]
  field_simp

/-- Mean of a pointwise difference. -/
theorem fmean_sub (n : ℕ) (z w : Fin n → ℝ) :
    fmean n (fun i => z i - w i) = fmean n z - fmean n w := by
  unfold fmean
  rw [Finset.sum_sub_distrib, sub_div]

/-- Mean of an affine image. -/
theorem fmean_affine (n : ℕ) (hn : 0 < n) (a b : ℝ) (z : Fin n → ℝ) :
    fmean n (fun i => a + b * z i) = a + b * fmean n z := by
  have hnR : (0 : ℝ) < n := by exact_mod_cast hn
  unfold fmean
  rw [Finset.sum_add_distrib, ← Finset.mul_sum, Finset.sum_const, Finset.card_univ,
    Fintype.card_fin, nsmul_eq_mul]
  field_simp
  ring

/-- A family bounded in absolute value has a bounded mean. -/
theorem abs_fmean_le (n : ℕ) (hn : 0 < n) (z : Fin n → ℝ) (e : ℝ)
    (h : ∀ i, |z i| ≤ e) : |fmean n z| ≤ e := by
  have hnR : (0 : ℝ) < n := by exact_mod_cast hn
  unfold fmean
  rw [abs_div, abs_of_pos hnR, div_le_iff₀ hnR]
  calc |∑ i, z i| ≤ ∑ i, |z i| := Finset.abs_sum_le_sum_abs _ _
    _ ≤ ∑ _i : Fin n, e := Finset.sum_le_sum fun i _ => h i
    _ = e * n := by
        rw [Finset.sum_const, Finset.card_univ, Fintype.card_fin, nsmul_eq_mul]
        ring

/-- Variance of an affine image. -/
theorem fvar_affine (n : ℕ) (hn : 0 < n) (a b : ℝ) (z : Fin n → ℝ) :
    fvar n (fun i => a + b * z i) = b ^ 2 * fvar n z := by
  have hnR : ((n : ℝ)) ≠ 0 := by
    have : (0 : ℝ) < n := by exact_mod_cast hn
    exact this.ne'
  have hinner : (∑ i : Fin n, (a + b * z i)) = n * a + b * ∑ i : Fin n, z i := by
    rw [Finset.sum_add_distrib, ← Finset.mul_sum, Finset.sum_const, Finset.card_univ,
      Fintype.card_fin, nsmul_eq_mul]
  have hsum : (∑ i : Fin n, (a + b * z i - (n * a + b * ∑ j : Fin n, z j) / n) ^ 2)
      = b ^ 2 * ∑ i : Fin n, (z i - (∑ j : Fin n, z j) / n) ^ 2 := by
    conv_rhs => rw [Finset.mul_sum]
    apply Finset.sum_congr rfl
    intro i _
    field_simp
    ring
  simp only [fvar, fmean]
  rw [hinner, hsum, mul_div_assoc]

/-- Perturbation bound for the population variance: when two families agree
pointwise within `e`, the variance moves by at most `2*s*e + e^2`, where `s`
is the standard deviation of the reference family. -/
theorem fvar_perturb (n : ℕ) (hn : 0 < n) (x y : Fin n → ℝ) (e s : ℝ)
    (hs0 : 0 ≤ s) (hs : s ^ 2 = fvar n y) (hpt : ∀ i, |x i - y i| ≤ e) :
    |fvar n x - fvar n y| ≤ 2 * s * e + e ^ 2 := by
  have hnR : (0 : ℝ) < n := by exact_mod_cast hn
  have he : 0 ≤ e := le_trans (abs_nonneg _) (hpt ⟨0, hn⟩)
  have hsum_e : ∑ i : Fin n, (x i - y i) = n * (fmean n x - fmean n y) := by
    have h1 : fmean n (fun i => x i - y i) = fmean n x - fmean n y := fmean_sub n x y
    rw [← h1]
    unfold fmean
    field_simp
  have hsumY2 : ∑ i : Fin n, (y i - fmean n y) ^ 2 = n * fvar n y := by
    unfold fvar fmean
    field_simp
  have key : ∀ i : Fin n, (x i - fmean n x) ^ 2
      = (y i - fmean n y) ^ 2
        + (2 * ((y i - fmean n y) * ((x i - y i) - (fmean n x - fmean n y)))
          + ((x i - y i) - (fmean n x - fmean n y)) ^ 2) := fun i => by ring
  have hsum_split : ∑ i : Fin n, (x i - fmean n x) ^ 2
      = (∑ i : Fin n, (y i - fmean n y) ^ 2)
        + (2 * (∑ i : Fin n, (y i - fmean n y) * ((x i - y i) - (fmean n x - fmean n y)))
          + ∑ i : Fin n, ((x i - y i) - (fmean n x - fmean n y)) ^ 2) := by
    calc ∑ i : Fin n, (x i - fmean n x) ^ 2
        = ∑ i : Fin n, ((y i - fmean n y) ^ 2
            + (2 * ((y i - fmean n y) * ((x i - y i) - (fmean n x - fmean n y)))
              + ((x i - y i) - (fmean n x - fmean n y)) ^ 2)) :=
          Finset.sum_congr rfl fun i _ => key i
      _ = (∑ i : Fin n, (y i - fmean n y) ^ 2)
            + (2 * (∑ i : Fin n, (y i - fmean n y) * ((x i - y i) - (fmean n x - fmean n y)))
              + ∑ i : Fin n, ((x i - y i) - (fmean n x - fmean n y)) ^ 2) := by
          rw [Finset.sum_add_distrib, Finset.sum_add_distrib, ← Finset.mul_sum]
  have hE2 : ∑ i : Fin n, ((x i - y i) - (fmean n x - fmean n y)) ^ 2 ≤ n * e ^ 2 := by
    have hbound : ∑ i : Fin n, (x i - y i) ^ 2 ≤ n * e ^ 2 := by
      calc ∑ i : Fin n, (x i - y i) ^ 2 ≤ ∑ _i : Fin n, e ^ 2 := by
            apply Finset.sum_le_sum
            intro i _
            have h := hpt i
            nlinarith [sq_abs (x i - y i), abs_nonneg (x i - y i)]
        _ = n * e ^ 2 := by
            rw [Finset.sum_const, Finset.card_univ, Fintype.card_fin, nsmul_eq_mul]
    have hexp : ∑ i : Fin n, ((x i - y i) - (fmean n x - fmean n y)) ^ 2
        = (∑ i : Fin n, (x i - y i) ^ 2) - n * (fmean n x - fmean n y) ^ 2 := by
      calc ∑ i : Fin n, ((x i - y i) - (fmean n x - fmean n y)) ^ 2
          = ∑ i : Fin n, ((x i - y i) ^ 2
              - 2 * (fmean n x - fmean n y) * (x i - y i) + (fmean n x - fmean n y) ^ 2) :=
            Finset.sum_congr rfl fun i _ => by ring
        _ = ((∑ i : Fin n, (x i - y i) ^ 2)
              - 2 * (fmean n x - fmean n y) * (∑ i : Fin n, (x i - y i)))
              + n * (fmean n x - fmean n y) ^ 2 := by
            rw [Finset.sum_add_distrib, Finset.sum_sub_distrib, ← Finset.mul_sum,
              Finset.sum_const, Finset.card_univ, Fintype.card_fin, nsmul_eq_mul]
        _ = (∑ i : Fin n, (x i - y i) ^ 2) - n * (fmean n x - fmean n y) ^ 2 := by
            rw [hsum_e]
            ring
    rw [hexp]
    nlinarith [sq_nonneg (fmean n x - fmean n y)]
  have hE2nonneg : (0 : ℝ) ≤ ∑ i : Fin n, ((x i - y i) - (fmean n x - fmean n y)) ^ 2 :=
    Finset.sum_nonneg fun i _ => sq_nonneg _
  have hcross : |∑ i : Fin n, (y i - fmean n y) * ((x i - y i) - (fmean n x - fmean n y))|
      ≤ n * s * e := by
    have hCS := Finset.sum_mul_sq_le_sq_mul_sq Finset.univ
      (fun i => y i - fmean n y) (fun i => (x i - y i) - (fmean n x - fmean n y))
    have hsq : (∑ i : Fin n, (y i - fmean n y) * ((x i - y i) - (fmean n x - fmean n y))) ^ 2
        ≤ (n * s * e) ^ 2 := by
      calc (∑ i : Fin n, (y i - fmean n y) * ((x i - y i) - (fmean n x - fmean n y))) ^ 2
          ≤ (∑ i : Fin n, (y i - fmean n y) ^ 2)
            * ∑ i : Fin n, ((x i - y i) - (fmean n x - fmean n y)) ^ 2 := hCS
        _ ≤ (n * s ^ 2) * (n * e ^ 2) := by
            have h1 : ∑ i : Fin n, (y i - fmean n y) ^ 2 = n * s ^ 2 := by
              rw [hsumY2, hs]
            rw [h1]
            apply mul_le_mul_of_nonneg_left hE2
            positivity
        _ = (n * s * e) ^ 2 := by ring
    have hnse : (0 : ℝ) ≤ n * s * e := by positivity
    nlinarith [abs_nonneg (∑ i : Fin n, (y i - fmean n y) * ((x i - y i) - (fmean n x - fmean n y))),
      sq_abs (∑ i : Fin n, (y i - fmean n y) * ((x i - y i) - (fmean n x - fmean n y)))]
  have hfx : fvar n x - fvar n y
      = (2 * (∑ i : Fin n, (y i - fmean n y) * ((x i - y i) - (fmean n x - fmean n y)))
        + ∑ i : Fin n, ((x i - y i) - (fmean n x - fmean n y)) ^ 2) / n := by
    have h1 : fvar n x = (∑ i : Fin n, (x i - fmean n x) ^ 2) / n := rfl
    have h2 : fvar n y = (∑ i : Fin n, (y i - fmean n y) ^ 2) / n := rfl
    rw [h1, h2, hsum_split]
    field_simp
  rw [hfx, abs_div, abs_of_pos hnR, div_le_iff₀ hnR]
  have habs : |2 * (∑ i : Fin n, (y i - fmean n y) * ((x i - y i) - (fmean n x - fmean n y)))
      + ∑ i : Fin n, ((x i - y i) - (fmean n x - fmean n y)) ^ 2|
      ≤ 2 * (n * s * e) + n * e ^ 2 := by
    calc |2 * (∑ i : Fin n, (y i - fmean n y) * ((x i - y i) - (fmean n x - fmean n y)))
        + ∑ i : Fin n, ((x i - y i) - (fmean n x - fmean n y)) ^ 2|
        ≤ |2 * (∑ i : Fin n, (y i - fmean n y) * ((x i - y i) - (fmean n x - fmean n y)))|
          + |∑ i : Fin n, ((x i - y i) - (fmean n x - fmean n y)) ^ 2| := abs_add _ _
      _ = 2 * |∑ i : Fin n, (y i - fmean n y) * ((x i - y i) - (fmean n x - fmean n y))|
          + ∑ i : Fin n, ((x i - y i) - (fmean n x - fmean n y)) ^ 2 := by
          rw [abs_mul, abs_two, abs_of_nonneg hE2nonneg]
      _ ≤ 2 * (n * s * e) + n * e ^ 2 := by
          have h3 := mul_le_mul_of_nonneg_left hcross (by norm_num : (0:ℝ) ≤ 2)
          linarith
  calc |2 * (∑ i : Fin n, (y i - fmean n y) * ((x i - y i) - (fmean n x - fmean n y)))
      + ∑ i : Fin n, ((x i - y i) - (fmean n x - fmean n y)) ^ 2|
      ≤ 2 * (n * s * e) + n * e ^ 2 := habs
    _ = (2 * s * e + e ^ 2) * n := by ring

/-- The sum of a mapped list as an indexed sum. -/
theorem sum_map_eq_fin_sum {α β : Type} [AddCommMonoid β] (l : List α) (f : α → β) :
    (l.map f).sum = ∑ i : Fin l.length, f (l.get i) := by
  calc (l.map f).sum = ((List.ofFn l.get).map f).sum := by rw [List.ofFn_get]
    _ = (List.ofFn (f ∘ l.get)).sum := by rw [List.map_ofFn]
    _ = ∑ i : Fin l.length, (f ∘ l.get) i := List.sum_ofFn
    _ = ∑ i : Fin l.length, f (l.get i) := rfl

/-- The list mean of a mapped list as an indexed mean. -/
theorem listMean_map {α β : Type} [DivisionRing β] (l : List α) (f : α → β) :
    listMean (l.map f) = fmean l.length (fun i => f (l.get i)) := by
  unfold listMean fmean
  rw [List.length_map, sum_map_eq_fin_sum]

/-- The list variance of a mapped list as an indexed variance. -/
theorem listVar_map {α β : Type} [DivisionRing β] (l : List α) (f : α → β) :
    listVar (l.map f) = fvar l.length (fun i => f (l.get i)) := by
  unfold listVar fvar
  rw [listMean_map l f, List.map_map, listMean_map l]
  rfl

/-- Casting an indexed rational mean to the reals. -/
theorem fmean_cast (n : ℕ) (g : Fin n → ℚ) :
    ((fmean n g : ℚ) : ℝ) = fmean n (fun i => ((g i : ℚ) : ℝ)) := by
  unfold fmean
  push_cast
  rfl

/-- Casting an indexed rational variance to the reals. -/
theorem fvar_cast (n : ℕ) (g : Fin n → ℚ) :
    ((fvar n g : ℚ) : ℝ) = fvar n (fun i => ((g i : ℚ) : ℝ)) := by
  unfold fvar
  rw [fmean_cast]
  congr 1
  funext i
  push_cast
  rw [fmean_cast]

/-- The final `VIBE` values of a population whose every element has just
been given a `VIBE` key. -/
theorem finalVibes_map (rs : List VibeResult) (g : VibeResult → ℝ) :
    finalVibes (rs.map (fun r => { r with VIBE := some (g r) })) = rs.map g := by
  unfold finalVibes
  induction rs with
  | nil => rfl
  | cons a as ih => simp [List.filterMap_cons, ih]

/-- One-decimal rounding moves a value by at most 1/20. -/
theorem round1_err (z : ℝ) : |((round ((10 : ℝ) * z) : ℤ) : ℝ) / 10 - z| ≤ 1 / 20 := by
  have h := abs_sub_round ((10 : ℝ) * z)
  have heq : ((round ((10 : ℝ) * z) : ℤ) : ℝ) / 10 - z
      = -((10 : ℝ) * z - ((round ((10 : ℝ) * z) : ℤ) : ℝ)) / 10 := by ring
  rw [heq, abs_div, abs_neg, abs_of_pos (by norm_num : (0 : ℝ) < 10)]
  linarith

/-- C4 (amended): for every non-empty population whose `VIBE_shrunk` values
are not all equal (positive variance), the normalizer's final `VIBE` values
have mean within 1/20 of 100 and standard deviation within 1/10 of 15; the
slack is exactly the one-decimal rounding of each final value.  (For a
population with all shrunk values equal the rescale degenerates: every final
value is 100 and the standard deviation is 0, refuting the claim's
universal form.) -/
theorem C4_rescale_invariant (rs out : List VibeResult)
    (h : calculate_final_vibe_scores rs out) (hne : rs ≠ [])
    (hv : 0 < listVar (rs.map VibeResult.VIBE_shrunk))
    (s : ℝ) (hs : IsStd (listVar (finalVibes out)) s) :
    |listMean (finalVibes out) - 100| ≤ 1 / 20 ∧ |s - 15| ≤ 1 / 10 := by
  rw [calculate_final_vibe_scores, if_neg (by simpa using hne)] at h
  obtain ⟨s0, hs0, hout⟩ := h
  have hn : 0 < rs.length := List.length_pos.mpr hne
  have hmR : ((listMean (rs.map VibeResult.VIBE_shrunk) : ℚ) : ℝ)
      = fmean rs.length (fun j => ((rs.get j).VIBE_shrunk : ℝ)) := by
    rw [listMean_map rs VibeResult.VIBE_shrunk, fmean_cast]
  have hvR : ((listVar (rs.map VibeResult.VIBE_shrunk) : ℚ) : ℝ)
      = fvar rs.length (fun j => ((rs.get j).VIBE_shrunk : ℝ)) := by
    rw [listVar_map rs VibeResult.VIBE_shrunk, fvar_cast]
  have hvpos : (0 : ℝ) < fvar rs.length (fun j => ((rs.get j).VIBE_shrunk : ℝ)) := by
    rw [← hvR]
    exact_mod_cast hv
  have hs02 : s0 ^ 2 = fvar rs.length (fun j => ((rs.get j).VIBE_shrunk : ℝ)) := by
    rw [← hvR]
    exact hs0.2
  have hs0pos : 0 < s0 := by
    rcases lt_or_eq_of_le hs0.1 with hlt | heq
    · exact hlt
    · exfalso
      nlinarith [hs02, hvpos]
  have hσ : (if s0 ≤ 0 then (1 : ℝ) else s0) = s0 := if_neg (not_le.mpr hs0pos)
  simp only [hσ] at hout
  have hfv : finalVibes out = rs.map (fun r => ((round ((10 : ℝ) *
      (100 + 15 * ((r.VIBE_shrunk : ℝ) -
        ((listMean (rs.map VibeResult.VIBE_shrunk) : ℚ) : ℝ)) / s0)) : ℤ) : ℝ) / 10) := by
    rw [hout]
    exact finalVibes_map rs _
  have hFmean : listMean (finalVibes out) = fmean rs.length (fun i => ((round ((10 : ℝ) *
      (100 + 15 * (((rs.get i).VIBE_shrunk : ℝ) -
        fmean rs.length (fun j => ((rs.get j).VIBE_shrunk : ℝ))) / s0)) : ℤ) : ℝ) / 10) := by
    rw [hfv, listMean_map]
    simp only [hmR]
  have hFvar : listVar (finalVibes out) = fvar rs.length (fun i => ((round ((10 : ℝ) *
      (100 + 15 * (((rs.get i).VIBE_shrunk : ℝ) -
        fmean rs.length (fun j => ((rs.get j).VIBE_shrunk : ℝ))) / s0)) : ℤ) : ℝ) / 10) := by
    rw [hfv, listVar_map]
    simp only [hmR]
  have hymean : fmean rs.length (fun i =>
      100 + 15 * (((rs.get i).VIBE_shrunk : ℝ) -
        fmean rs.length (fun j => ((rs.get j).VIBE_shrunk : ℝ))) / s0) = 100 := by
    calc fmean rs.length (fun i =>
        100 + 15 * (((rs.get i).VIBE_shrunk : ℝ) -
          fmean rs.length (fun j => ((rs.get j).VIBE_shrunk : ℝ))) / s0)
        = fmean rs.length (fun i =>
            (100 - 15 / s0 * fmean rs.length (fun j => ((rs.get j).VIBE_shrunk : ℝ)))
            + (15 / s0) * ((rs.get i).VIBE_shrunk : ℝ)) := by
          congr 1
          funext i
          ring
      _ = (100 - 15 / s0 * fmean rs.length (fun j => ((rs.get j).VIBE_shrunk : ℝ)))
            + (15 / s0) * fmean rs.length (fun j => ((rs.get j).VIBE_shrunk : ℝ)) :=
          fmean_affine rs.length hn _ _ _
      _ = 100 := by ring
  have hyvar : fvar rs.length (fun i =>
      100 + 15 * (((rs.get i).VIBE_shrunk : ℝ) -
        fmean rs.length (fun j => ((rs.get j).VIBE_shrunk : ℝ))) / s0) = 225 := by
    calc fvar rs.length (fun i =>
        100 + 15 * (((rs.get i).VIBE_shrunk : ℝ) -
          fmean rs.length (fun j => ((rs.get j).VIBE_shrunk : ℝ))) / s0)
        = fvar rs.length (fun i =>
            (100 - 15 / s0 * fmean rs.length (fun j => ((rs.get j).VIBE_shrunk : ℝ)))
            + (15 / s0) * ((rs.get i).VIBE_shrunk : ℝ)) := by
          congr 1
          funext i
          ring
      _ = (15 / s0) ^ 2 * fvar rs.length (fun j => ((rs.get j).VIBE_shrunk : ℝ)) :=
          fvar_affine rs.length hn _ _ _
      _ = 225 := by
          rw [← hs02]
          field_simp
          ring
  have hpt : ∀ i : Fin rs.length, |((round ((10 : ℝ) *
      (100 + 15 * (((rs.get i).VIBE_shrunk : ℝ) -
        fmean rs.length (fun j => ((rs.get j).VIBE_shrunk : ℝ))) / s0)) : ℤ) : ℝ) / 10
      - (100 + 15 * (((rs.get i).VIBE_shrunk : ℝ) -
        fmean rs.length (fun j => ((rs.get j).VIBE_shrunk : ℝ))) / s0)| ≤ 1 / 20 :=
    fun i => round1_err _
  constructor
  · rw [hFmean]
    have hsub : fmean rs.length (fun i => ((round ((10 : ℝ) *
        (100 + 15 * (((rs.get i).VIBE_shrunk : ℝ) -
          fmean rs.length (fun j => ((rs.get j).VIBE_shrunk : ℝ))) / s0)) : ℤ) : ℝ) / 10)
        - 100
        = fmean rs.length (fun i => ((round ((10 : ℝ) *
            (100 + 15 * (((rs.get i).VIBE_shrunk : ℝ) -
              fmean rs.length (fun j => ((rs.get j).VIBE_shrunk : ℝ))) / s0)) : ℤ) : ℝ) / 10
            - (100 + 15 * (((rs.get i).VIBE_shrunk : ℝ) -
              fmean rs.length (fun j => ((rs.get j).VIBE_shrunk : ℝ))) / s0)) := by
      rw [fmean_sub]
      rw [hymean]
    rw [hsub]
    exact abs_fmean_le rs.length hn _ _ hpt
  · have hperturb := fvar_perturb rs.length hn
      (fun i => ((round ((10 : ℝ) *
        (100 + 15 * (((rs.get i).VIBE_shrunk : ℝ) -
          fmean rs.length (fun j => ((rs.get j).VIBE_shrunk : ℝ))) / s0)) : ℤ) : ℝ) / 10)
      (fun i => 100 + 15 * (((rs.get i).VIBE_shrunk : ℝ) -
          fmean rs.length (fun j => ((rs.get j).VIBE_shrunk : ℝ))) / s0)
      (1 / 20) 15 (by norm_num) (by rw [hyvar]; norm_num) hpt
    rw [hyvar] at hperturb
    obtain ⟨hA, hB⟩ := abs_le.mp hperturb
    obtain ⟨hsnn, hs2⟩ := hs
    rw [hFvar] at hs2
    have h1 : (149 / 10 : ℝ) < s := by nlinarith
    have h2 : s < (151 / 10 : ℝ) := by nlinarith
    rw [abs_le]
    constructor <;> linarith

/-- C4, counterexample: on the singleton population `[rV0]` (and generally
whenever all `VIBE_shrunk` values coincide) the std of the shrunk scores is
0, the divisor is floored to 1, every final `VIBE` is exactly 100, and the
standard deviation of the final values is 0 — not 15 up to rounding error.
The claim's universal form over all non-empty populations is false. -/
theorem C4_counterexample :
    calculate_final_vibe_scores [rV0] outC4x ∧
    finalVibes outC4x = [100] ∧
    listMean (finalVibes outC4x) = 100 ∧
    ¬ ∃ s : ℝ, IsStd (listVar (finalVibes outC4x)) s ∧ |s - 15| ≤ 1 / 10 := by
  have hfv : finalVibes outC4x = [100] := by
    norm_num [finalVibes, outC4x, rV0, List.filterMap]
  have hrel : calculate_final_vibe_scores [rV0] outC4x := by
    rw [calculate_final_vibe_scores, if_neg (by simp)]
    refine ⟨0, ⟨le_refl 0, by norm_num [listVar, listMean, rV0]⟩, ?_⟩
    simp only [List.map, outC4x]
    norm_num [rV0, listMean, round_ofNat]
  have hval : listVar (finalVibes outC4x) = 0 := by
    rw [hfv]
    norm_num [listVar, listMean]
  refine ⟨hrel, hfv, ?_, ?_⟩
  · rw [hfv]
    norm_num [listMean]
  · rintro ⟨s, ⟨hsnn, hs2⟩, habs⟩
    rw [hval] at hs2
    have hz : s = 0 := by nlinarith
    rw [hz] at habs
    norm_num at habs

/-- Witness for C4 at the two-element population with shrunk scores 0 and 2
(final scores 85 and 115, mean 100 and standard deviation 15 exactly). -/
theorem C4_witness :
    |listMean (finalVibes outC4) - 100| ≤ 1 / 20 ∧ |(15 : ℝ) - 15| ≤ 1 / 10 := by
  have hrel : calculate_final_vibe_scores rsC4 outC4 := by
    rw [calculate_final_vibe_scores, if_neg (by simp [rsC4])]
    refine ⟨1, ⟨by norm_num, by norm_num [rsC4, rV0, rV2, listVar, listMean]⟩, ?_⟩
    simp only [List.map, outC4, rsC4]
    norm_num [rV0, rV2, listMean, round_ofNat]
  have hs : IsStd (listVar (finalVibes outC4)) 15 := by
    have hfv : finalVibes outC4 = [85, 115] := by
      norm_num [finalVibes, outC4, rV0, rV2, List.filterMap]
    refine ⟨by norm_num, ?_⟩
    rw [hfv]
    norm_num [listVar, listMean]
  exact C4_rescale_invariant rsC4 outC4 hrel (by simp [rsC4])
    (by norm_num [rsC4, rV0, rV2, listVar, listMean]) 15 hs

end Vibe
